import Mathlib

/-!
Shallow embedding of the two icon-generation scripts of the
lfglabs-dev/convertify repository: `generate-icons.py` (the full
pipeline, namespace `FullGen`) and `Scripts/generate-fallback-icons.py`
(the fallback pipeline, namespace `Fallback`).

Modelling conventions:
* Python float arithmetic is modelled with exact rationals and Python's
  `int()` conversion with truncation toward zero (`pyTrunc`); Python's
  integer `//` with floor division (`pyFloorDiv`).
* An image is its declared width/height, its PIL mode and a total pixel
  function.  An image of mode "RGB" carries no alpha band in PIL; its
  pixels are represented here with alpha `255` (fully opaque).
* Imaging-library primitives whose pixel output the scripts do not
  define (LANCZOS resampling, Gaussian blur, `Image.open`,
  `Image.alpha_composite`, ellipse rasterisation) are parameters
  collected in a `PILLib` structure.  Primitives with documented
  structural behaviour are modelled concretely: result sizes and modes,
  `paste` blending each band by the mask's alpha band (full copy where
  the mask is 255), `putalpha` replacing the alpha band wholesale, and
  `crop` index arithmetic.
* The scripts' side effects (prints, directory creation, file writes
  and copies, the `iconutil` subprocess, directory removal) are
  modelled as an explicit event trace; the filesystem's `os.path.exists`
  is a boolean-valued parameter, and the subprocess outcome of the
  external packer (or an exception raised during that step) is an
  `Except` parameter.
-/

namespace Convertify

/-- Python `int()` applied to a numeric value: truncation toward zero. -/
def pyTrunc (q : ℚ) : ℤ := if q < 0 then -(Int.floor (-q)) else Int.floor q

/-- Python `//` on integers: floor division. -/
def pyFloorDiv (a b : ℤ) : ℤ := Int.fdiv a b

/-- One pixel.  For a PIL image of mode "RGB" (no alpha band) the pixel
is represented with `a = 255`. -/
structure RGBA where
  r : ℤ
  g : ℤ
  b : ℤ
  a : ℤ
deriving DecidableEq, Repr

/-- The PIL modes appearing in the scripts. -/
inductive Mode where
  | RGB
  | RGBA
deriving DecidableEq, Repr

/-- An in-memory raster: declared size, mode and pixel function. -/
structure Img where
  width : ℕ
  height : ℕ
  mode : Mode
  pix : ℤ → ℤ → RGBA

/-- The imaging-library primitives whose pixel-level output is not
defined by the scripts themselves; kept abstract as parameters. -/
structure PILLib where
  openW : String → ℕ
  openH : String → ℕ
  openPix : String → ℤ → ℤ → RGBA
  resamplePix : Img → ℕ → ℕ → ℤ → ℤ → RGBA
  blurPix : Img → ℤ → ℤ → ℤ → RGBA
  compositePix : Img → Img → ℤ → ℤ → RGBA
  ellipseCover : ℤ → ℤ → ℤ → ℤ → ℤ → ℤ → Bool

/-- `Image.open(path).convert("RGBA")`: size and pixels come from the
file on disk, hence from the abstract library. -/
def openRGBA (lib : PILLib) (path : String) : Img :=
  ⟨lib.openW path, lib.openH path, Mode.RGBA, lib.openPix path⟩

/-- `img.resize((w, h), Image.Resampling.LANCZOS)`: the result has
exactly the requested size and the same mode; pixels are abstract. -/
def resize (lib : PILLib) (img : Img) (w h : ℕ) : Img :=
  ⟨w, h, img.mode, lib.resamplePix img w h⟩

/-- `img.filter(ImageFilter.GaussianBlur(radius))`: size and mode are
preserved; pixels are abstract. -/
def gaussianBlur (lib : PILLib) (img : Img) (radius : ℤ) : Img :=
  ⟨img.width, img.height, img.mode, lib.blurPix img radius⟩

/-- `Image.alpha_composite(dst, src)`: an RGBA image of the first
argument's size; pixels are abstract. -/
def alpha_composite (lib : PILLib) (dst src : Img) : Img :=
  ⟨dst.width, dst.height, Mode.RGBA, lib.compositePix dst src⟩

/-- A freshly allocated image, `Image.new(mode, (w, h), fill)`. -/
def newImg (w h : ℕ) (m : Mode) (c : RGBA) : Img :=
  ⟨w, h, m, fun _ _ => c⟩

/-- The rectangle covered when pasting a `w × h` image at `(px, py)`. -/
def inRegion (w h : ℕ) (px py x y : ℤ) : Prop :=
  px ≤ x ∧ x < px + w ∧ py ≤ y ∧ y < py + h

instance (w h : ℕ) (px py x y : ℤ) : Decidable (inRegion w h px py x y) := by
  unfold inRegion
  infer_instance

/-- One band of PIL's `paste` with a mask band of value `m`: full copy
of the source where `m = 255`, destination kept where `m = 0`, blended
in between. -/
def blendChan (d s m : ℤ) : ℤ :=
  pyTrunc (((d : ℚ) * ((255 : ℚ) - (m : ℚ)) + (s : ℚ) * (m : ℚ)) / 255)

/-- `dst.paste(src, (px, py), mask)` where the mask is the RGBA source
itself, so its alpha band masks the paste.  A destination of mode "RGB"
keeps no alpha band (represented as alpha 255). -/
def pasteMask (dst src : Img) (px py : ℤ) : Img :=
  { dst with pix := fun x y =>
      if inRegion src.width src.height px py x y then
        let s := src.pix (x - px) (y - py)
        let d := dst.pix x y
        ⟨blendChan d.r s.r s.a, blendChan d.g s.g s.a, blendChan d.b s.b s.a,
          if dst.mode = Mode.RGB then 255 else blendChan d.a s.a s.a⟩
      else dst.pix x y }

/-- `dst.paste(src, (px, py))` without a mask: plain copy of the source
bands into the region; an "RGB" destination keeps no alpha band. -/
def pasteCopy (dst src : Img) (px py : ℤ) : Img :=
  { dst with pix := fun x y =>
      if inRegion src.width src.height px py x y then
        let s := src.pix (x - px) (y - py)
        ⟨s.r, s.g, s.b, if dst.mode = Mode.RGB then 255 else s.a⟩
      else dst.pix x y }

/-- `img.crop((l, t, r, b))`. -/
def crop (img : Img) (l t r b : ℤ) : Img :=
  ⟨(r - l).toNat, (b - t).toNat, img.mode, fun x y => img.pix (x + l) (y + t)⟩

/-- `img.putalpha(band)`: replaces the alpha band wholesale. -/
def putalpha (img : Img) (band : ℤ → ℤ → ℤ) : Img :=
  { img with pix := fun x y => { img.pix x y with a := band x y } }

/-- `ImageDraw.Draw(img).ellipse(bbox, fill)`: pixels covered by the
rasterised ellipse are replaced by the fill colour (including its alpha
value — drawing replaces, it does not composite). -/
def drawEllipse (lib : PILLib) (img : Img) (x0 y0 x1 y1 : ℤ) (fill : RGBA) : Img :=
  { img with pix := fun x y =>
      if lib.ellipseCover x0 y0 x1 y1 x y then fill else img.pix x y }

/-- The interpolation fraction `i / (size - 1) if size > 1 else 0` used
by both gradient synthesizers. -/
def frac (size : ℕ) (i : ℤ) : ℚ :=
  if 1 < size then (i : ℚ) / ((size : ℚ) - 1) else 0

/-- One channel of `int(c0 + (c1 - c0) * t)`, the linear-interpolation
step both scripts use, with Python `int()` truncation. -/
def lerpChan (c0 c1 : ℤ) (t : ℚ) : ℤ :=
  pyTrunc ((c0 : ℚ) + ((c1 : ℚ) - (c0 : ℚ)) * t)

/-- A side effect performed by a script run. -/
inductive Event where
  | print (s : String)
  | mkdir (p : String)
  | writeFile (p : String)
  | copyFile (src dst : String)
  | runProc (args : List String)
  | rmtree (p : String)
deriving DecidableEq, Repr

/-- `os.path.join` for the fixed relative paths of the scripts. -/
def joinPath (a b : String) : String := a ++ "/" ++ b

/-- Outcome of `subprocess.run`. -/
structure SubprocResult where
  returncode : ℤ
  stderr : String
deriving DecidableEq, Repr

/-- The separator banner `"=" * 60` printed by both scripts. -/
def banner : String := String.mk (List.replicate 60 ('='))

/-- The per-size loop shared by both `main`s: for every catalog entry
in order, `create_icon` writes the PNG at the catalog filename and
prints a progress line. -/
def iconLoopEvents (out : String) : List (ℕ × ℕ × String) → List Event
  | [] => []
  | e :: rest =>
      Event.writeFile (joinPath out e.2.2) ::
      Event.print ("Created: " ++ joinPath out e.2.2 ++ " (" ++ toString (e.1 * e.2.1)
        ++ "x" ++ toString (e.1 * e.2.1) ++ ")") :: iconLoopEvents out rest

namespace FullGen

/-- `ICON_SIZES` of `generate-icons.py`. -/
def ICON_SIZES : List (ℕ × ℕ × String) := [
  (16, 1, "icon_16x16.png"),
  (16, 2, "icon_16x16@2x.png"),
  (32, 1, "icon_32x32.png"),
  (32, 2, "icon_32x32@2x.png"),
  (128, 1, "icon_128x128.png"),
  (128, 2, "icon_128x128@2x.png"),
  (256, 1, "icon_256x256.png"),
  (256, 2, "icon_256x256@2x.png"),
  (512, 1, "icon_512x512.png"),
  (512, 2, "icon_512x512@2x.png")]

/-- Dark teal (top-left). -/
def color_tl : ℤ × ℤ × ℤ := (20, 45, 55)

/-- Blue-purple (top-right). -/
def color_tr : ℤ × ℤ × ℤ := (35, 40, 70)

/-- Teal (bottom-left). -/
def color_bl : ℤ × ℤ × ℤ := (25, 50, 65)

/-- Purple (bottom-right). -/
def color_br : ℤ × ℤ × ℤ := (55, 30, 75)

/-- The bilinear-interpolation pixel of `create_gradient_background`:
interpolate the top edge and the bottom edge by the x-fraction, then
between the two by the y-fraction, truncating at every channel step. -/
def gradientPix (size : ℕ) (x y : ℤ) : RGBA :=
  let tx := frac size x
  let ty := frac size y
  let top_r := lerpChan color_tl.1 color_tr.1 tx
  let top_g := lerpChan color_tl.2.1 color_tr.2.1 tx
  let top_b := lerpChan color_tl.2.2 color_tr.2.2 tx
  let bot_r := lerpChan color_bl.1 color_br.1 tx
  let bot_g := lerpChan color_bl.2.1 color_br.2.1 tx
  let bot_b := lerpChan color_bl.2.2 color_br.2.2 tx
  ⟨lerpChan top_r bot_r ty, lerpChan top_g bot_g ty, lerpChan top_b bot_b ty, 255⟩

/-- `create_gradient_background` of the full generator. -/
def create_gradient_background (size : ℕ) : Img :=
  ⟨size, size, Mode.RGBA, fun x y => gradientPix size x y⟩

/-- The radii visited by `range(max_radius, 0, -1)`:
`[max_radius, max_radius - 1, ..., 1]`. -/
def glowRadii : ℕ → List ℕ
  | 0 => []
  | n + 1 => (n + 1) :: glowRadii n

/-- `int(255 * intensity * (1 - radius / max_radius) ** 2)`. -/
def glowAlpha (intensity : ℚ) (radius maxRadius : ℕ) : ℤ :=
  pyTrunc ((255 : ℚ) * intensity * ((1 : ℚ) - (radius : ℚ) / (maxRadius : ℚ)) ^ 2)

/-- `create_inner_glow`: concentric filled circles drawn from the outer
radius inward; a radius whose computed alpha is not positive is skipped. -/
def create_inner_glow (lib : PILLib) (size : ℕ) (color : ℤ × ℤ × ℤ)
    (intensity : ℚ) : Img :=
  let center : ℤ := (size / 2 : ℕ)
  let maxRadius : ℕ := size / 2
  (glowRadii maxRadius).foldl
    (fun glow radius =>
      let alpha := glowAlpha intensity radius maxRadius
      if 0 < alpha then
        drawEllipse lib glow (center - radius) (center - radius)
          (center + radius) (center + radius)
          ⟨color.1, color.2.1, color.2.2, alpha⟩
      else glow)
    (newImg size size Mode.RGBA ⟨0, 0, 0, 0⟩)

/-- The ellipse draw calls `create_inner_glow` actually performs, as
(radius, alpha) pairs in drawing order. -/
def glowDrawCalls (size : ℕ) (intensity : ℚ) : List (ℕ × ℤ) :=
  let maxRadius : ℕ := size / 2
  (glowRadii maxRadius).filterMap (fun radius =>
    let alpha := glowAlpha intensity radius maxRadius
    if 0 < alpha then some (radius, alpha) else none)

/-- `canvas_size = size + shadow_expansion * 2` with
`shadow_expansion = blur_radius * 2` in `add_drop_shadow`. -/
def shadowCanvasSize (size : ℕ) (blur_radius : ℤ) : ℤ :=
  (size : ℤ) + blur_radius * 2 * 2

/-- The stamped silhouette of `add_drop_shadow`: a uniform
`(0, 0, 0, int(255 * shadow_opacity))` layer whose alpha band is then
replaced by the icon's own alpha band via `putalpha`. -/
def shadow_layer (icon : Img) (size : ℕ) (shadow_opacity : ℚ) : Img :=
  putalpha (newImg size size Mode.RGBA ⟨0, 0, 0, pyTrunc (255 * shadow_opacity)⟩)
    (fun x y => (icon.pix x y).a)

/-- `add_drop_shadow`. -/
def add_drop_shadow (lib : PILLib) (icon : Img) (size : ℕ) (offset : ℤ × ℤ)
    (blur_radius : ℤ) (shadow_opacity : ℚ) : Img :=
  let shadow_expansion := blur_radius * 2
  let canvas_size := shadowCanvasSize size blur_radius
  let shadow := newImg canvas_size.toNat canvas_size.toNat Mode.RGBA ⟨0, 0, 0, 0⟩
  let sl := shadow_layer icon size shadow_opacity
  let shadow1 := pasteMask shadow sl (shadow_expansion + offset.1) (shadow_expansion + offset.2)
  let shadow2 := gaussianBlur lib shadow1 blur_radius
  let shadow3 := pasteMask shadow2 icon shadow_expansion shadow_expansion
  crop shadow3 shadow_expansion shadow_expansion
    (shadow_expansion + size) (shadow_expansion + size)

/-- `create_icon` of the full generator; returns the image that is
saved at `output_path` (the save and the progress print are traced by
`main`). -/
def create_icon (lib : PILLib) (shadow_path logo_path output_path : String)
    (size scale : ℕ) : Img :=
  let actual_size := size * scale
  let background := create_gradient_background actual_size
  let glow := create_inner_glow lib actual_size (100, 180, 180) (15 / 100)
  let background2 := alpha_composite lib background glow
  let logo := openRGBA lib logo_path
  let logo_size := (pyTrunc ((actual_size : ℚ) * (80 / 100))).toNat
  let logo_resized := resize lib logo logo_size logo_size
  let logo_offset := pyFloorDiv ((actual_size : ℤ) - (logo_size : ℤ)) 2
  let logo_with_shadow := add_drop_shadow lib logo_resized logo_size
    (pyTrunc ((actual_size : ℚ) * (2 / 100)), pyTrunc ((actual_size : ℚ) * (2 / 100)))
    (pyTrunc ((actual_size : ℚ) * (25 / 1000))) (7 / 100)
  let final := pasteMask background2 logo_with_shadow logo_offset logo_offset
  let final_rgb := newImg actual_size actual_size Mode.RGB ⟨0, 0, 0, 255⟩
  pasteMask final_rgb final 0 0

/-- `icon_mapping` of `generate_icns`. -/
def icon_mapping : List (String × String) := [
  ("icon_16x16.png", "icon_16x16.png"),
  ("icon_16x16@2x.png", "icon_16x16@2x.png"),
  ("icon_32x32.png", "icon_32x32.png"),
  ("icon_32x32@2x.png", "icon_32x32@2x.png"),
  ("icon_128x128.png", "icon_128x128.png"),
  ("icon_128x128@2x.png", "icon_128x128@2x.png"),
  ("icon_256x256.png", "icon_256x256.png"),
  ("icon_256x256@2x.png", "icon_256x256@2x.png"),
  ("icon_512x512.png", "icon_512x512.png"),
  ("icon_512x512@2x.png", "icon_512x512@2x.png")]

/-- `generate_icns`.  `packer` is the outcome of the guarded step: an
`Except.error` models an exception raised inside the `try` block (the
caught handler prints and returns `False`); an `Except.ok` carries the
`subprocess.run` result. -/
def generate_icns (fs : String → Bool) (packer : Except String SubprocResult)
    (input_dir output_path : String) : Bool × List Event :=
  match packer with
  | Except.error e => (false, [Event.print ("Error generating .icns: " ++ e)])
  | Except.ok result =>
      let iconset_path := output_path.replace (".icns") (".iconset")
      let copyEvents := icon_mapping.filterMap (fun nm =>
        if fs (joinPath input_dir nm.1) then
          some (Event.copyFile (joinPath input_dir nm.1) (joinPath iconset_path nm.2))
        else none)
      let preEvents := Event.mkdir iconset_path :: copyEvents ++
        [Event.runProc ["iconutil", "-c", "icns", iconset_path, "-o", output_path]]
      if result.returncode = 0 then
        (true, preEvents ++ [Event.print ("Created: " ++ output_path), Event.rmtree iconset_path])
      else
        (false, preEvents ++ [Event.print ("Error creating .icns: " ++ result.stderr)])

/-- `shadow_path` computed by `main`. -/
def shadow_path (script_dir : String) : String :=
  joinPath script_dir ("shadow_layer_converted.png")

/-- `logo_path` computed by `main`. -/
def logo_path (script_dir : String) : String :=
  joinPath script_dir ("logo_layer_converted.png")

/-- `output_dir` computed by `main`. -/
def output_dir (script_dir : String) : String :=
  joinPath (joinPath (joinPath script_dir ("Convertify")) ("Assets.xcassets"))
    ("AppIcon.appiconset")

/-- Directory of `icns_path` computed by `main`. -/
def icns_dir (script_dir : String) : String :=
  joinPath (joinPath (joinPath script_dir ("Convertify.app")) ("Contents")) ("Resources")

/-- `icns_path` computed by `main`. -/
def icns_path (script_dir : String) : String :=
  joinPath (icns_dir script_dir) ("AppIcon.icns")

/-- `main` of `generate-icons.py`: returns the process exit code and
the trace of side effects. -/
def main (lib : PILLib) (fs : String → Bool) (packer : Except String SubprocResult)
    (script_dir : String) : ℤ × List Event :=
  let shadowWarn :=
    if fs (shadow_path script_dir) then [] else
      [Event.print ("Warning: Shadow layer not found at " ++ shadow_path script_dir),
       Event.print ("Proceeding without shadow layer...")]
  if fs (logo_path script_dir) = false then
    (1, shadowWarn ++ [Event.print ("Error: Logo layer not found at " ++ logo_path script_dir)])
  else
    (0, shadowWarn ++
      [Event.mkdir (output_dir script_dir),
       Event.print banner,
       Event.print ("Generating macOS Big Sur+ style app icons"),
       Event.print banner,
       Event.print ("Logo layer: " ++ logo_path script_dir),
       Event.print ("Output: " ++ output_dir script_dir),
       Event.print ("")] ++
      iconLoopEvents (output_dir script_dir) ICON_SIZES ++
      [Event.writeFile (joinPath (output_dir script_dir) ("Contents.json")),
       Event.print ("Updated: " ++ joinPath (output_dir script_dir) ("Contents.json")),
       Event.print (""),
       Event.print ("Generating .icns file..."),
       Event.mkdir (icns_dir script_dir)] ++
      (generate_icns fs packer (output_dir script_dir) (icns_path script_dir)).2 ++
      [Event.print (""),
       Event.print banner,
       Event.print ("App icons generated successfully!"),
       Event.print banner])

end FullGen

namespace Fallback

/-- `ICON_SIZES` of `generate-fallback-icons.py`. -/
def ICON_SIZES : List (ℕ × ℕ × String) := [
  (16, 1, "icon_16x16.png"),
  (16, 2, "icon_16x16@2x.png"),
  (32, 1, "icon_32x32.png"),
  (32, 2, "icon_32x32@2x.png"),
  (128, 1, "icon_128x128.png"),
  (128, 2, "icon_128x128@2x.png"),
  (256, 1, "icon_256x256.png"),
  (256, 2, "icon_256x256@2x.png"),
  (512, 1, "icon_512x512.png"),
  (512, 2, "icon_512x512@2x.png")]

/-- Top colour `(57, 62, 62)`. -/
def color_top : ℤ × ℤ × ℤ := (57, 62, 62)

/-- Bottom colour `(34, 36, 43)`. -/
def color_bottom : ℤ × ℤ × ℤ := (34, 36, 43)

/-- `gradient_end = 0.7`. -/
def gradient_end : ℚ := 7 / 10

/-- The per-row colour of the fallback `create_gradient_background`:
interpolate from the top colour down to the bottom colour while
`ty <= 0.7`, flat bottom colour beyond. -/
def rowColor (size : ℕ) (y : ℤ) : ℤ × ℤ × ℤ :=
  let ty := frac size y
  if ty ≤ gradient_end then
    let t := ty / gradient_end
    (lerpChan color_top.1 color_bottom.1 t,
     lerpChan color_top.2.1 color_bottom.2.1 t,
     lerpChan color_top.2.2 color_bottom.2.2 t)
  else (color_bottom.1, color_bottom.2.1, color_bottom.2.2)

/-- `create_gradient_background` of the fallback generator (an "RGB"
image; the per-row colour is written to every pixel of the row). -/
def create_gradient_background (size : ℕ) : Img :=
  ⟨size, size, Mode.RGB, fun _ y =>
    ⟨(rowColor size y).1, (rowColor size y).2.1, (rowColor size y).2.2, 255⟩⟩

/-- `create_icon` of the fallback generator; returns the image that is
saved at `output_path`. -/
def create_icon (lib : PILLib) (logo_path output_path : String)
    (size scale : ℕ) : Img :=
  let actual_size := size * scale
  let background := create_gradient_background actual_size
  let logo := openRGBA lib logo_path
  let logo_size := (pyTrunc ((actual_size : ℚ) * (70 / 100))).toNat
  let logo_aspect : ℚ := (logo.width : ℚ) / (logo.height : ℚ)
  let nwh : ℕ × ℕ :=
    if 1 < logo_aspect then
      (logo_size, (pyTrunc ((logo_size : ℚ) / logo_aspect)).toNat)
    else
      ((pyTrunc ((logo_size : ℚ) * logo_aspect)).toNat, logo_size)
  let logo_resized := resize lib logo nwh.1 nwh.2
  let x_offset := pyFloorDiv ((actual_size : ℤ) - (nwh.1 : ℤ)) 2
  let y_offset := pyFloorDiv ((actual_size : ℤ) - (nwh.2 : ℤ)) 2
  let background_rgba : Img := { background with mode := Mode.RGBA }
  let bg2 := pasteMask background_rgba logo_resized x_offset y_offset
  let final := newImg actual_size actual_size Mode.RGB ⟨0, 0, 0, 255⟩
  pasteCopy final bg2 0 0

/-- `logo_path` computed by `main` (relative to the project root, which
the script derives as the parent directory of its own location). -/
def logo_path (project_root : String) : String :=
  joinPath (joinPath (joinPath (joinPath project_root ("Convertify"))
    ("AppIcon.icon")) ("Assets")) ("clean_convertify.png")

/-- `output_dir` computed by `main`. -/
def output_dir (project_root : String) : String :=
  joinPath (joinPath (joinPath project_root ("Convertify")) ("Assets.xcassets"))
    ("AppIcon.appiconset")

/-- `main` of `generate-fallback-icons.py`: exit code and side-effect
trace.  `project_root` stands for `os.path.dirname(script_dir)`. -/
def main (lib : PILLib) (fs : String → Bool) (project_root : String) : ℤ × List Event :=
  if fs (logo_path project_root) = false then
    (1, [Event.print ("Error: Logo not found at " ++ logo_path project_root)])
  else
    (0, [Event.mkdir (output_dir project_root),
         Event.print banner,
         Event.print ("Generating fallback AppIcon.appiconset"),
         Event.print banner,
         Event.print ("Logo: " ++ logo_path project_root),
         Event.print ("Output: " ++ output_dir project_root),
         Event.print ("")] ++
      iconLoopEvents (output_dir project_root) ICON_SIZES ++
      [Event.writeFile (joinPath (output_dir project_root) ("Contents.json")),
       Event.print ("Created: Contents.json"),
       Event.print (""),
       Event.print banner,
       Event.print ("Fallback icons generated successfully!"),
       Event.print banner])

end Fallback

/-- Truncation of an exact integer value is that integer. -/
lemma pyTrunc_intCast (n : ℤ) : pyTrunc (n : ℚ) = n := by
  unfold pyTrunc
  split
  · rw [← Int.cast_neg, Int.floor_intCast]
    omega
  · rw [Int.floor_intCast]

/-- Interpolating with fraction 0 yields the first colour exactly. -/
lemma lerpChan_zero (c0 c1 : ℤ) : lerpChan c0 c1 0 = c0 := by
  unfold lerpChan
  rw [mul_zero, add_zero, pyTrunc_intCast]

/-- Interpolating with fraction 1 yields the second colour exactly. -/
lemma lerpChan_one (c0 c1 : ℤ) : lerpChan c0 c1 1 = c1 := by
  unfold lerpChan
  have h : (c0 : ℚ) + ((c1 : ℚ) - (c0 : ℚ)) * 1 = ((c1 : ℤ) : ℚ) := by
    ring
  rw [h, pyTrunc_intCast]

/-- The interpolation fraction at index 0 is 0 for every size. -/
lemma frac_zero (size : ℕ) : frac size 0 = 0 := by
  unfold frac
  split <;> simp

/-- The interpolation fraction at the last index is exactly 1 when the
size is at least 2. -/
lemma frac_last (size : ℕ) (h : 2 ≤ size) : frac size ((size : ℤ) - 1) = 1 := by
  have h1 : 1 < size := by omega
  have h2 : ((size : ℚ) - 1) ≠ 0 := by
    have : (2 : ℚ) ≤ (size : ℚ) := by exact_mod_cast h
    intro hc
    linarith
  unfold frac
  rw [if_pos h1]
  push_cast
  exact div_self h2

/-- For size at most 1 the guarded fraction is defined as 0. -/
lemma frac_of_le_one (size : ℕ) (h : size ≤ 1) (i : ℤ) : frac size i = 0 := by
  unfold frac
  rw [if_neg (by omega)]

/-- A paste band masked with value 255 copies the source band exactly. -/
lemma blendChan_full_copy (d s : ℤ) : blendChan d s 255 = s := by
  unfold blendChan
  have h : (((d : ℚ) * ((255 : ℚ) - ((255 : ℤ) : ℚ)) + (s : ℚ) * ((255 : ℤ) : ℚ)) / 255)
      = ((s : ℤ) : ℚ) := by
    push_cast
    ring
  rw [h, pyTrunc_intCast]

/-- A concrete trivial instantiation of the abstract library, used to
evaluate the development on closed inputs. -/
def constLib : PILLib where
  openW := fun _ => 1
  openH := fun _ => 1
  openPix := fun _ _ _ => ⟨0, 0, 0, 255⟩
  resamplePix := fun _ _ _ _ _ => ⟨0, 0, 0, 255⟩
  blurPix := fun _ _ _ _ => ⟨0, 0, 0, 0⟩
  compositePix := fun _ _ _ _ => ⟨0, 0, 0, 255⟩
  ellipseCover := fun _ _ _ _ _ _ => false

/-- Every catalog entry gets its PNG write event in the per-size loop. -/
lemma mem_iconLoopEvents (out : String) (l : List (ℕ × ℕ × String))
    (size scale : ℕ) (fn : String) (h : (size, scale, fn) ∈ l) :
    Event.writeFile (joinPath out fn) ∈ iconLoopEvents out l := by
  induction l with
  | nil => cases h
  | cons hd tl ih =>
      obtain ⟨a, b, c⟩ := hd
      rcases List.mem_cons.mp h with h1 | h2
      · obtain ⟨rfl, rfl, rfl⟩ := Prod.mk.injEq .. ▸ h1
        simp [iconLoopEvents]
      · simp only [iconLoopEvents]
        exact List.mem_cons_of_mem _ (List.mem_cons_of_mem _ (ih h2))

/-- C7: in both pipelines, when the required logo asset is missing,
`main` prints the error and returns exit code 1 with a trace containing
no directory creation, no file write and no file copy; when the logo
exists (and the run completes), `main` returns 0. -/
theorem missing_logo_aborts (lib : PILLib) (fs : String → Bool)
    (packer : Except String SubprocResult) (sd pr : String) :
    (fs (FullGen.logo_path sd) = false →
      (FullGen.main lib fs packer sd).1 = 1 ∧
      Event.print ("Error: Logo layer not found at " ++ FullGen.logo_path sd)
        ∈ (FullGen.main lib fs packer sd).2 ∧
      ∀ p : String, Event.mkdir p ∉ (FullGen.main lib fs packer sd).2 ∧
        Event.writeFile p ∉ (FullGen.main lib fs packer sd).2 ∧
        ∀ q : String, Event.copyFile p q ∉ (FullGen.main lib fs packer sd).2) ∧
    (fs (FullGen.logo_path sd) = true → (FullGen.main lib fs packer sd).1 = 0) ∧
    (fs (Fallback.logo_path pr) = false →
      (Fallback.main lib fs pr).1 = 1 ∧
      Event.print ("Error: Logo not found at " ++ Fallback.logo_path pr)
        ∈ (Fallback.main lib fs pr).2 ∧
      ∀ p : String, Event.mkdir p ∉ (Fallback.main lib fs pr).2 ∧
        Event.writeFile p ∉ (Fallback.main lib fs pr).2 ∧
        ∀ q : String, Event.copyFile p q ∉ (Fallback.main lib fs pr).2) ∧
    (fs (Fallback.logo_path pr) = true → (Fallback.main lib fs pr).1 = 0) := by
  refine ⟨?_, ?_, ?_, ?_⟩
  · intro h
    refine ⟨?_, ?_, ?_⟩
    · simp [FullGen.main, h]
    · by_cases hs : fs (FullGen.shadow_path sd) <;> simp [FullGen.main, h, hs]
    · intro p
      by_cases hs : fs (FullGen.shadow_path sd) <;> simp [FullGen.main, h, hs]
  · intro h
    simp [FullGen.main, h]
  · intro h
    refine ⟨?_, ?_, ?_⟩
    · simp [Fallback.main, h]
    · simp [Fallback.main, h]
    · intro p
      simp [Fallback.main, h]
  · intro h
    simp [Fallback.main, h]

/-- Witness for `missing_logo_aborts`: a filesystem with no files gives
exit code 1 and a print-only trace; a filesystem with every file gives
exit code 0, in both pipelines. -/
theorem missing_logo_aborts_witness :
    ((FullGen.main constLib (fun _ => false) (Except.ok ⟨0, ""⟩) ("S")).1 = 1 ∧
      Event.print ("Error: Logo layer not found at " ++ FullGen.logo_path ("S"))
        ∈ (FullGen.main constLib (fun _ => false) (Except.ok ⟨0, ""⟩) ("S")).2 ∧
      ∀ p : String,
        Event.mkdir p ∉ (FullGen.main constLib (fun _ => false) (Except.ok ⟨0, ""⟩) ("S")).2 ∧
        Event.writeFile p ∉ (FullGen.main constLib (fun _ => false) (Except.ok ⟨0, ""⟩) ("S")).2 ∧
        ∀ q : String, Event.copyFile p q
          ∉ (FullGen.main constLib (fun _ => false) (Except.ok ⟨0, ""⟩) ("S")).2) ∧
    (FullGen.main constLib (fun _ => true) (Except.ok ⟨0, ""⟩) ("S")).1 = 0 ∧
    ((Fallback.main constLib (fun _ => false) ("P")).1 = 1 ∧
      Event.print ("Error: Logo not found at " ++ Fallback.logo_path ("P"))
        ∈ (Fallback.main constLib (fun _ => false) ("P")).2 ∧
      ∀ p : String, Event.mkdir p ∉ (Fallback.main constLib (fun _ => false) ("P")).2 ∧
        Event.writeFile p ∉ (Fallback.main constLib (fun _ => false) ("P")).2 ∧
        ∀ q : String, Event.copyFile p q ∉ (Fallback.main constLib (fun _ => false) ("P")).2) ∧
    (Fallback.main constLib (fun _ => true) ("P")).1 = 0 :=
  ⟨(missing_logo_aborts constLib (fun _ => false) (Except.ok ⟨0, ""⟩) ("S") ("P")).1 rfl,
   (missing_logo_aborts constLib (fun _ => true) (Except.ok ⟨0, ""⟩) ("S") ("P")).2.1 rfl,
   (missing_logo_aborts constLib (fun _ => false) (Except.ok ⟨0, ""⟩) ("S") ("P")).2.2.1 rfl,
   (missing_logo_aborts constLib (fun _ => true) (Except.ok ⟨0, ""⟩) ("S") ("P")).2.2.2 rfl⟩

/-- C8: a failed external packer invocation — a raised exception or a
non-zero subprocess exit — makes `generate_icns` print an error and
return `False` rather than raise, and `main` still returns 0 with every
catalog PNG's write event present in its trace (the failure neither
changes the process exit code nor removes the already-written PNGs). -/
theorem icns_failure_nonfatal (lib : PILLib) (fs : String → Bool)
    (packer : Except String SubprocResult) (sd input_dir out_path e : String)
    (r : SubprocResult) (hr : r.returncode ≠ 0)
    (hl : fs (FullGen.logo_path sd) = true) :
    (FullGen.generate_icns fs (Except.error e) input_dir out_path).1 = false ∧
    Event.print ("Error generating .icns: " ++ e)
      ∈ (FullGen.generate_icns fs (Except.error e) input_dir out_path).2 ∧
    (FullGen.generate_icns fs (Except.ok r) input_dir out_path).1 = false ∧
    Event.print ("Error creating .icns: " ++ r.stderr)
      ∈ (FullGen.generate_icns fs (Except.ok r) input_dir out_path).2 ∧
    (FullGen.main lib fs packer sd).1 = 0 ∧
    (∀ size scale : ℕ, ∀ fn : String, (size, scale, fn) ∈ FullGen.ICON_SIZES →
      Event.writeFile (joinPath (FullGen.output_dir sd) fn)
        ∈ (FullGen.main lib fs packer sd).2) := by
  refine ⟨rfl, ?_, ?_, ?_, ?_, ?_⟩
  · simp [FullGen.generate_icns]
  · simp [FullGen.generate_icns, if_neg hr]
  · simp [FullGen.generate_icns, if_neg hr]
  · simp [FullGen.main, hl]
  · intro s sc fn hmem
    have hm := mem_iconLoopEvents (FullGen.output_dir sd) FullGen.ICON_SIZES s sc fn hmem
    by_cases hs : fs (FullGen.shadow_path sd) <;>
      simp [FullGen.main, hl, hs, List.mem_append, hm]

/-- Witness for `icns_failure_nonfatal` with an exception message, a
subprocess result of exit code 1, and a filesystem containing every
file. -/
theorem icns_failure_nonfatal_witness :
    ((⟨1, "bad"⟩ : SubprocResult).returncode ≠ 0) ∧
    ((FullGen.generate_icns (fun _ => true) (Except.error ("boom")) ("I") ("O.icns")).1 = false ∧
     Event.print ("Error generating .icns: " ++ "boom")
       ∈ (FullGen.generate_icns (fun _ => true) (Except.error ("boom")) ("I") ("O.icns")).2 ∧
     (FullGen.generate_icns (fun _ => true) (Except.ok ⟨1, "bad"⟩) ("I") ("O.icns")).1 = false ∧
     Event.print ("Error creating .icns: " ++ (⟨1, "bad"⟩ : SubprocResult).stderr)
       ∈ (FullGen.generate_icns (fun _ => true) (Except.ok ⟨1, "bad"⟩) ("I") ("O.icns")).2 ∧
     (FullGen.main constLib (fun _ => true) (Except.error ("boom")) ("S")).1 = 0 ∧
     (∀ size scale : ℕ, ∀ fn : String, (size, scale, fn) ∈ FullGen.ICON_SIZES →
       Event.writeFile (joinPath (FullGen.output_dir ("S")) fn)
         ∈ (FullGen.main constLib (fun _ => true) (Except.error ("boom")) ("S")).2)) :=
  ⟨by norm_num,
   icns_failure_nonfatal constLib (fun _ => true) (Except.error ("boom")) ("S") ("I")
     ("O.icns") ("boom") ⟨1, "bad"⟩ (by norm_num) rfl⟩

/-- A masked paste onto an "RGB" destination keeps every pixel fully
opaque. -/
lemma pasteMask_alpha_keeps_full (dst src : Img) (px py x y : ℤ)
    (hm : dst.mode = Mode.RGB) (hd : (dst.pix x y).a = 255) :
    ((pasteMask dst src px py).pix x y).a = 255 := by
  simp only [pasteMask]
  split
  · simp [hm]
  · exact hd

/-- A plain paste onto an "RGB" destination keeps every pixel fully
opaque. -/
lemma pasteCopy_alpha_keeps_full (dst src : Img) (px py x y : ℤ)
    (hm : dst.mode = Mode.RGB) (hd : (dst.pix x y).a = 255) :
    ((pasteCopy dst src px py).pix x y).a = 255 := by
  simp only [pasteCopy]
  split
  · simp [hm]
  · exact hd

/-- C6: `add_drop_shadow` allocates a working canvas larger than the
source by twice the blur radius on each side (`size + 4 * blur_radius`),
stamps a uniform-colour silhouette carrying the source's own alpha band,
and, after the blur, pastes the original unblurred image on top at its
true position and crops back to `size × size` — so every fully opaque
source pixel reappears unchanged at its original coordinates. -/
theorem drop_shadow_geometry (lib : PILLib) (icon : Img) (size : ℕ)
    (offset : ℤ × ℤ) (br : ℤ) (opacity : ℚ)
    (hw : icon.width = size) (hh : icon.height = size) :
    (FullGen.add_drop_shadow lib icon size offset br opacity).width = size ∧
    (FullGen.add_drop_shadow lib icon size offset br opacity).height = size ∧
    FullGen.shadowCanvasSize size br = (size : ℤ) + 4 * br ∧
    (∀ x y : ℤ, (FullGen.shadow_layer icon size opacity).pix x y
      = ⟨0, 0, 0, (icon.pix x y).a⟩) ∧
    (∀ x y : ℤ, 0 ≤ x → x < (size : ℤ) → 0 ≤ y → y < (size : ℤ) →
      (icon.pix x y).a = 255 →
      (FullGen.add_drop_shadow lib icon size offset br opacity).pix x y = icon.pix x y) := by
  refine ⟨?_, ?_, ?_, ?_, ?_⟩
  · show ((br * 2 + (size : ℤ)) - br * 2).toNat = size
    omega
  · show ((br * 2 + (size : ℤ)) - br * 2).toNat = size
    omega
  · unfold FullGen.shadowCanvasSize
    ring
  · intro x y
    rfl
  · intro x y hx0 hx hy0 hy ha
    simp only [FullGen.add_drop_shadow, crop, gaussianBlur, pasteMask]
    have hreg : inRegion icon.width icon.height (br * 2) (br * 2) (x + br * 2) (y + br * 2) := by
      unfold inRegion
      rw [hw, hh]
      omega
    rw [if_pos hreg]
    have hxx : x + br * 2 - br * 2 = x := by ring
    have hyy : y + br * 2 - br * 2 = y := by ring
    rw [hxx, hyy, ha]
    simp only [blendChan_full_copy]
    rw [← ha]
    simp only [ite_self]

/-- Witness for `drop_shadow_geometry` on a concrete 1 × 1 opaque icon. -/
theorem drop_shadow_geometry_witness :
    ((Img.mk 1 1 Mode.RGBA (fun _ _ => ⟨9, 8, 7, 255⟩)).width = 1) ∧
    ((FullGen.add_drop_shadow constLib
        (Img.mk 1 1 Mode.RGBA (fun _ _ => ⟨9, 8, 7, 255⟩)) 1 (0, 0) 0 0).width = 1 ∧
      (FullGen.add_drop_shadow constLib
        (Img.mk 1 1 Mode.RGBA (fun _ _ => ⟨9, 8, 7, 255⟩)) 1 (0, 0) 0 0).height = 1 ∧
      FullGen.shadowCanvasSize 1 0 = (1 : ℤ) + 4 * 0 ∧
      (∀ x y : ℤ, (FullGen.shadow_layer
          (Img.mk 1 1 Mode.RGBA (fun _ _ => ⟨9, 8, 7, 255⟩)) 1 0).pix x y
        = ⟨0, 0, 0, ((Img.mk 1 1 Mode.RGBA (fun _ _ => ⟨9, 8, 7, 255⟩)).pix x y).a⟩) ∧
      (∀ x y : ℤ, 0 ≤ x → x < (1 : ℤ) → 0 ≤ y → y < (1 : ℤ) →
        ((Img.mk 1 1 Mode.RGBA (fun _ _ => ⟨9, 8, 7, 255⟩)).pix x y).a = 255 →
        (FullGen.add_drop_shadow constLib
            (Img.mk 1 1 Mode.RGBA (fun _ _ => ⟨9, 8, 7, 255⟩)) 1 (0, 0) 0 0).pix x y
          = (Img.mk 1 1 Mode.RGBA (fun _ _ => ⟨9, 8, 7, 255⟩)).pix x y)) :=
  ⟨rfl, drop_shadow_geometry constLib
    (Img.mk 1 1 Mode.RGBA (fun _ _ => ⟨9, 8, 7, 255⟩)) 1 (0, 0) 0 0 rfl rfl⟩

/-- C1: for every catalog entry (the catalog being shared verbatim by
the two pipelines), the image `create_icon` saves has pixel dimensions
exactly `size * scale` by `size * scale` and is an "RGB" image with no
alpha band and every pixel fully opaque, in both the fallback and the
full pipeline, for every library behaviour and every logo input. -/
theorem catalog_icons_opaque_rgb (lib : PILLib) (sp lp op flp fop : String)
    (size scale : ℕ) (fn : String)
    (hmem : (size, scale, fn) ∈ FullGen.ICON_SIZES) :
    Fallback.ICON_SIZES = FullGen.ICON_SIZES ∧
    (FullGen.create_icon lib sp lp op size scale).width = size * scale ∧
    (FullGen.create_icon lib sp lp op size scale).height = size * scale ∧
    (FullGen.create_icon lib sp lp op size scale).mode = Mode.RGB ∧
    (∀ x y : ℤ, ((FullGen.create_icon lib sp lp op size scale).pix x y).a = 255) ∧
    (Fallback.create_icon lib flp fop size scale).width = size * scale ∧
    (Fallback.create_icon lib flp fop size scale).height = size * scale ∧
    (Fallback.create_icon lib flp fop size scale).mode = Mode.RGB ∧
    (∀ x y : ℤ, ((Fallback.create_icon lib flp fop size scale).pix x y).a = 255) := by
  refine ⟨rfl, rfl, rfl, rfl, ?_, rfl, rfl, rfl, ?_⟩
  · intro x y
    simp only [FullGen.create_icon]
    exact pasteMask_alpha_keeps_full _ _ _ _ x y rfl rfl
  · intro x y
    simp only [Fallback.create_icon]
    exact pasteCopy_alpha_keeps_full _ _ _ _ x y rfl rfl

/-- Witness for `catalog_icons_opaque_rgb` at the first catalog entry. -/
theorem catalog_icons_opaque_rgb_witness :
    ((16, 1, "icon_16x16.png") ∈ FullGen.ICON_SIZES) ∧
    (Fallback.ICON_SIZES = FullGen.ICON_SIZES ∧
     (FullGen.create_icon constLib ("s.png") ("l.png") ("o.png") 16 1).width = 16 * 1 ∧
     (FullGen.create_icon constLib ("s.png") ("l.png") ("o.png") 16 1).height = 16 * 1 ∧
     (FullGen.create_icon constLib ("s.png") ("l.png") ("o.png") 16 1).mode = Mode.RGB ∧
     (∀ x y : ℤ,
       ((FullGen.create_icon constLib ("s.png") ("l.png") ("o.png") 16 1).pix x y).a = 255) ∧
     (Fallback.create_icon constLib ("l.png") ("o.png") 16 1).width = 16 * 1 ∧
     (Fallback.create_icon constLib ("l.png") ("o.png") 16 1).height = 16 * 1 ∧
     (Fallback.create_icon constLib ("l.png") ("o.png") 16 1).mode = Mode.RGB ∧
     (∀ x y : ℤ,
       ((Fallback.create_icon constLib ("l.png") ("o.png") 16 1).pix x y).a = 255)) :=
  ⟨by decide,
   catalog_icons_opaque_rgb constLib ("s.png") ("l.png") ("o.png") ("l.png") ("o.png")
     16 1 ("icon_16x16.png") (by decide)⟩

/-- C9: the shadow asset is a dead parameter of the full pipeline's
`create_icon`: changing the shadow path and arbitrarily changing how the
library opens files — provided opening the logo path is unchanged —
leaves the produced icon image pixel-identical; the drop shadow is
synthesized from the logo's own alpha band. -/
theorem full_shadow_asset_dead (lib : PILLib)
    (ow oh : String → ℕ) (opx : String → ℤ → ℤ → RGBA)
    (sp1 sp2 lp out : String) (size scale : ℕ)
    (hW : ow lp = lib.openW lp) (hH : oh lp = lib.openH lp)
    (hP : opx lp = lib.openPix lp) :
    FullGen.create_icon { lib with openW := ow, openH := oh, openPix := opx }
        sp1 lp out size scale
      = FullGen.create_icon lib sp2 lp out size scale := by
  simp only [FullGen.create_icon, openRGBA]
  rw [hW, hH, hP]
  rfl

/-- Witness for `full_shadow_asset_dead`: two runs differing only in the
shadow path produce the same image. -/
theorem full_shadow_asset_dead_witness :
    (constLib.openW ("l.png") = constLib.openW ("l.png")) ∧
    FullGen.create_icon
        { constLib with openW := constLib.openW, openH := constLib.openH, openPix := constLib.openPix }
        ("other_shadow.png") ("l.png") ("o.png") 16 1
      = FullGen.create_icon constLib ("shadow.png") ("l.png") ("o.png") 16 1 :=
  ⟨rfl, full_shadow_asset_dead constLib constLib.openW constLib.openH constLib.openPix
    ("other_shadow.png") ("shadow.png") ("l.png") ("o.png") 16 1 rfl rfl rfl⟩

/-- The loop `range(max_radius, 0, -1)` visits exactly the radii
between 1 and `max_radius`. -/
lemma mem_glowRadii (n r : ℕ) : r ∈ FullGen.glowRadii n ↔ 1 ≤ r ∧ r ≤ n := by
  induction n with
  | zero =>
      simp [FullGen.glowRadii]
      omega
  | succ n ih =>
      simp [FullGen.glowRadii, ih]
      omega

/-- The loop `range(max_radius, 0, -1)` visits radii in strictly
decreasing order. -/
lemma glowRadii_pairwise (n : ℕ) :
    List.Pairwise (fun a b => b < a) (FullGen.glowRadii n) := by
  induction n with
  | zero => exact List.Pairwise.nil
  | succ n ih =>
      refine List.Pairwise.cons ?_ ih
      intro b hb
      have := (mem_glowRadii n b).mp hb
      omega

/-- The radii of the performed draw calls are the loop's radii filtered
by a positive computed alpha. -/
lemma filterMap_guard_map_fst (l : List ℕ) (A : ℕ → ℤ) :
    (l.filterMap (fun r => if 0 < A r then some (r, A r) else none)).map Prod.fst
      = l.filter (fun r => decide (0 < A r)) := by
  induction l with
  | nil => rfl
  | cons hd tl ih =>
      by_cases hc : 0 < A hd
      · simp [List.filterMap_cons, List.filter_cons, hc, ih]
      · simp [List.filterMap_cons, List.filter_cons, hc, ih]

/-- Folding a draw step guarded by a positive alpha equals folding the
unguarded step over the filtered draw-call list. -/
lemma foldl_guard_eq_foldl_filterMap (l : List ℕ) (A : ℕ → ℤ)
    (D : Img → ℕ × ℤ → Img) (init : Img) :
    l.foldl (fun img r => if 0 < A r then D img (r, A r) else img) init
      = (l.filterMap (fun r => if 0 < A r then some (r, A r) else none)).foldl D init := by
  induction l generalizing init with
  | nil => rfl
  | cons hd tl ih =>
      by_cases hc : 0 < A hd
      · simp [List.filterMap_cons, hc, ih]
      · simp [List.filterMap_cons, hc, ih]

/-- Characterisation of the draw calls `create_inner_glow` performs. -/
lemma mem_glowDrawCalls (size : ℕ) (intensity : ℚ) (p : ℕ × ℤ) :
    p ∈ FullGen.glowDrawCalls size intensity ↔
      p.1 ∈ FullGen.glowRadii (size / 2) ∧ 0 < p.2 ∧
        p.2 = FullGen.glowAlpha intensity p.1 (size / 2) := by
  simp only [FullGen.glowDrawCalls, List.mem_filterMap]
  constructor
  · rintro ⟨a, ha, hfa⟩
    by_cases hc : 0 < FullGen.glowAlpha intensity a (size / 2)
    · rw [if_pos hc] at hfa
      obtain rfl := Option.some.inj hfa
      exact ⟨ha, hc, rfl⟩
    · rw [if_neg hc] at hfa
      exact absurd hfa (by simp)
  · rintro ⟨h1, h2, h3⟩
    refine ⟨p.1, h1, ?_⟩
    rw [← h3, if_pos h2]

/-- C5: `create_inner_glow` draws concentric filled circles with
strictly decreasing radii taken from `max_radius = size // 2` down
to 1, each drawn circle's alpha is `int(255 * intensity *
(1 - radius / max_radius) ** 2)` and is positive, a radius whose
computed alpha is 0 is skipped, and the resulting image is the
painter's-algorithm fold (each draw replacing covered pixels) over
exactly those draw calls. -/
theorem inner_glow_draw_plan (lib : PILLib) (size : ℕ) (color : ℤ × ℤ × ℤ)
    (intensity : ℚ) :
    List.Pairwise (fun a b => b < a)
      ((FullGen.glowDrawCalls size intensity).map Prod.fst) ∧
    (∀ p ∈ FullGen.glowDrawCalls size intensity,
      p.2 = pyTrunc ((255 : ℚ) * intensity
          * ((1 : ℚ) - (p.1 : ℚ) / ((size / 2 : ℕ) : ℚ)) ^ 2) ∧
        0 < p.2 ∧ 1 ≤ p.1 ∧ p.1 ≤ size / 2) ∧
    (∀ r : ℕ, r ∈ FullGen.glowRadii (size / 2) →
      pyTrunc ((255 : ℚ) * intensity
          * ((1 : ℚ) - (r : ℚ) / ((size / 2 : ℕ) : ℚ)) ^ 2) = 0 →
      ∀ a : ℤ, (r, a) ∉ FullGen.glowDrawCalls size intensity) ∧
    FullGen.create_inner_glow lib size color intensity
      = (FullGen.glowDrawCalls size intensity).foldl
          (fun img p => drawEllipse lib img
            (((size / 2 : ℕ) : ℤ) - (p.1 : ℤ)) (((size / 2 : ℕ) : ℤ) - (p.1 : ℤ))
            (((size / 2 : ℕ) : ℤ) + (p.1 : ℤ)) (((size / 2 : ℕ) : ℤ) + (p.1 : ℤ))
            ⟨color.1, color.2.1, color.2.2, p.2⟩)
          (newImg size size Mode.RGBA ⟨0, 0, 0, 0⟩) := by
  refine ⟨?_, ?_, ?_, ?_⟩
  · have hfst := filterMap_guard_map_fst (FullGen.glowRadii (size / 2))
      (fun r => FullGen.glowAlpha intensity r (size / 2))
    simp only [FullGen.glowDrawCalls]
    rw [hfst]
    exact List.Pairwise.sublist (List.filter_sublist _) (glowRadii_pairwise _)
  · intro p hp
    obtain ⟨h1, h2, h3⟩ := (mem_glowDrawCalls size intensity p).mp hp
    obtain ⟨hr1, hr2⟩ := (mem_glowRadii (size / 2) p.1).mp h1
    exact ⟨h3, h2, hr1, hr2⟩
  · intro r _ hz a hmem
    obtain ⟨_, h2, h3⟩ := (mem_glowDrawCalls size intensity (r, a)).mp hmem
    have hz' : FullGen.glowAlpha intensity r (size / 2) = 0 := hz
    rw [h3, hz'] at h2
    exact absurd h2 (by omega)
  · have := foldl_guard_eq_foldl_filterMap (FullGen.glowRadii (size / 2))
      (fun r => FullGen.glowAlpha intensity r (size / 2))
      (fun img p => drawEllipse lib img
        (((size / 2 : ℕ) : ℤ) - (p.1 : ℤ)) (((size / 2 : ℕ) : ℤ) - (p.1 : ℤ))
        (((size / 2 : ℕ) : ℤ) + (p.1 : ℤ)) (((size / 2 : ℕ) : ℤ) + (p.1 : ℤ))
        ⟨color.1, color.2.1, color.2.2, p.2⟩)
      (newImg size size Mode.RGBA ⟨0, 0, 0, 0⟩)
    exact this

/-- Witness for `inner_glow_draw_plan` at size 6 and the intensity 0.15
used by `create_icon`. -/
theorem inner_glow_draw_plan_witness :
    List.Pairwise (fun a b => b < a)
      ((FullGen.glowDrawCalls 6 (15 / 100)).map Prod.fst) ∧
    (∀ p ∈ FullGen.glowDrawCalls 6 (15 / 100),
      p.2 = pyTrunc ((255 : ℚ) * (15 / 100)
          * ((1 : ℚ) - (p.1 : ℚ) / ((6 / 2 : ℕ) : ℚ)) ^ 2) ∧
        0 < p.2 ∧ 1 ≤ p.1 ∧ p.1 ≤ 6 / 2) ∧
    (∀ r : ℕ, r ∈ FullGen.glowRadii (6 / 2) →
      pyTrunc ((255 : ℚ) * (15 / 100)
          * ((1 : ℚ) - (r : ℚ) / ((6 / 2 : ℕ) : ℚ)) ^ 2) = 0 →
      ∀ a : ℤ, (r, a) ∉ FullGen.glowDrawCalls 6 (15 / 100)) ∧
    FullGen.create_inner_glow constLib 6 (80, 200, 200) (15 / 100)
      = (FullGen.glowDrawCalls 6 (15 / 100)).foldl
          (fun img p => drawEllipse constLib img
            (((6 / 2 : ℕ) : ℤ) - (p.1 : ℤ)) (((6 / 2 : ℕ) : ℤ) - (p.1 : ℤ))
            (((6 / 2 : ℕ) : ℤ) + (p.1 : ℤ)) (((6 / 2 : ℕ) : ℤ) + (p.1 : ℤ))
            ⟨(80, 200, 200).1, (80, 200, 200).2.1, (80, 200, 200).2.2, p.2⟩)
          (newImg 6 6 Mode.RGBA ⟨0, 0, 0, 0⟩) :=
  inner_glow_draw_plan constLib 6 (80, 200, 200) (15 / 100)

/-- C10: `create_inner_glow` is total for every size: for size ≤ 1 the
radius loop `range(size // 2, 0, -1)` is empty (so the quotient
`radius / max_radius` is never evaluated and the glow stays the fully
transparent base image), while for size ≥ 2 the divisor
`max_radius = size // 2` is at least 1, hence nonzero, for every
visited radius. -/
theorem inner_glow_size_guard (lib : PILLib) (size : ℕ) (color : ℤ × ℤ × ℤ)
    (intensity : ℚ) :
    (size ≤ 1 →
      FullGen.glowRadii (size / 2) = [] ∧
      FullGen.create_inner_glow lib size color intensity
        = newImg size size Mode.RGBA ⟨0, 0, 0, 0⟩) ∧
    (2 ≤ size →
      1 ≤ size / 2 ∧ ((size / 2 : ℕ) : ℚ) ≠ 0 ∧
      ∀ r ∈ FullGen.glowRadii (size / 2), 1 ≤ r ∧ r ≤ size / 2) := by
  constructor
  · intro h
    have h0 : size / 2 = 0 := by omega
    refine ⟨by rw [h0]; rfl, ?_⟩
    simp [FullGen.create_inner_glow, h0, FullGen.glowRadii]
  · intro h
    refine ⟨by omega, ?_, ?_⟩
    · exact Nat.cast_ne_zero.mpr (by omega)
    · intro r hr
      exact (mem_glowRadii (size / 2) r).mp hr

/-- Witness for `inner_glow_size_guard` at sizes 1 and 2 (discharging
each of the two guards at its own concrete size). -/
theorem inner_glow_size_guard_witness :
    (FullGen.glowRadii (1 / 2) = [] ∧
      FullGen.create_inner_glow constLib 1 (80, 200, 200) (3 / 10)
        = newImg 1 1 Mode.RGBA ⟨0, 0, 0, 0⟩) ∧
    (1 ≤ 2 / 2 ∧ ((2 / 2 : ℕ) : ℚ) ≠ 0 ∧
      ∀ r ∈ FullGen.glowRadii (2 / 2), 1 ≤ r ∧ r ≤ 2 / 2) :=
  ⟨(inner_glow_size_guard constLib 1 (80, 200, 200) (3 / 10)).1 (by norm_num),
   (inner_glow_size_guard constLib 2 (80, 200, 200) (3 / 10)).2 (by norm_num)⟩

/-- C2: for every size ≥ 2 the full generator's gradient has exactly the
four configured corner colours at the four corner pixels, every pixel is
the two-stage bilinear interpolation (top edge by the x-fraction, bottom
edge by the x-fraction, then between those by the y-fraction) with each
channel step truncated toward zero, and truncation (not rounding) is
visible at a concrete interior pixel where the exact value is 27.5. -/
theorem full_gradient_bilinear_corners (size : ℕ) (h : 2 ≤ size) :
    (FullGen.create_gradient_background size).pix 0 0 = ⟨20, 45, 55, 255⟩ ∧
    (FullGen.create_gradient_background size).pix ((size : ℤ) - 1) 0 = ⟨35, 40, 70, 255⟩ ∧
    (FullGen.create_gradient_background size).pix 0 ((size : ℤ) - 1) = ⟨25, 50, 65, 255⟩ ∧
    (FullGen.create_gradient_background size).pix ((size : ℤ) - 1) ((size : ℤ) - 1)
      = ⟨55, 30, 75, 255⟩ ∧
    (∀ x y : ℤ,
      (FullGen.create_gradient_background size).pix x y =
        ⟨lerpChan (lerpChan 20 35 (frac size x)) (lerpChan 25 55 (frac size x)) (frac size y),
         lerpChan (lerpChan 45 40 (frac size x)) (lerpChan 50 30 (frac size x)) (frac size y),
         lerpChan (lerpChan 55 70 (frac size x)) (lerpChan 65 75 (frac size x)) (frac size y),
         255⟩) ∧
    (FullGen.create_gradient_background 3).pix 1 0 = ⟨27, 42, 62, 255⟩ := by
  refine ⟨?_, ?_, ?_, ?_, ?_, ?_⟩
  · simp [FullGen.create_gradient_background, FullGen.gradientPix, frac_zero,
      lerpChan_zero, FullGen.color_tl, FullGen.color_tr, FullGen.color_bl, FullGen.color_br]
  · simp [FullGen.create_gradient_background, FullGen.gradientPix, frac_zero,
      frac_last size h, lerpChan_zero, lerpChan_one,
      FullGen.color_tl, FullGen.color_tr, FullGen.color_bl, FullGen.color_br]
  · simp [FullGen.create_gradient_background, FullGen.gradientPix, frac_zero,
      frac_last size h, lerpChan_zero, lerpChan_one,
      FullGen.color_tl, FullGen.color_tr, FullGen.color_bl, FullGen.color_br]
  · simp [FullGen.create_gradient_background, FullGen.gradientPix, frac_zero,
      frac_last size h, lerpChan_zero, lerpChan_one,
      FullGen.color_tl, FullGen.color_tr, FullGen.color_bl, FullGen.color_br]
  · intro x y
    rfl
  · norm_num [FullGen.create_gradient_background, FullGen.gradientPix, frac, lerpChan,
      pyTrunc, FullGen.color_tl, FullGen.color_tr, FullGen.color_bl, FullGen.color_br]

/-- Witness for `full_gradient_bilinear_corners` at size 3. -/
theorem full_gradient_bilinear_corners_witness :
    2 ≤ 3 ∧
    ((FullGen.create_gradient_background 3).pix 0 0 = ⟨20, 45, 55, 255⟩ ∧
     (FullGen.create_gradient_background 3).pix ((3 : ℤ) - 1) 0 = ⟨35, 40, 70, 255⟩ ∧
     (FullGen.create_gradient_background 3).pix 0 ((3 : ℤ) - 1) = ⟨25, 50, 65, 255⟩ ∧
     (FullGen.create_gradient_background 3).pix ((3 : ℤ) - 1) ((3 : ℤ) - 1)
       = ⟨55, 30, 75, 255⟩ ∧
     (∀ x y : ℤ,
       (FullGen.create_gradient_background 3).pix x y =
         ⟨lerpChan (lerpChan 20 35 (frac 3 x)) (lerpChan 25 55 (frac 3 x)) (frac 3 y),
          lerpChan (lerpChan 45 40 (frac 3 x)) (lerpChan 50 30 (frac 3 x)) (frac 3 y),
          lerpChan (lerpChan 55 70 (frac 3 x)) (lerpChan 65 75 (frac 3 x)) (frac 3 y),
          255⟩) ∧
     (FullGen.create_gradient_background 3).pix 1 0 = ⟨27, 42, 62, 255⟩) :=
  ⟨by norm_num, full_gradient_bilinear_corners 3 (by norm_num)⟩

/-- C3: for every size ≥ 2 the fallback gradient's row 0 is exactly the
top colour, every row whose normalized height reaches the 0.7 threshold
is exactly the bottom colour, every row is uniform, and rows up to the
threshold are linearly interpolated with fraction `ty / 0.7`. -/
theorem fallback_gradient_rows (size : ℕ) (h : 2 ≤ size) :
    (∀ x : ℤ, (Fallback.create_gradient_background size).pix x 0 = ⟨57, 62, 62, 255⟩) ∧
    (∀ x y : ℤ, Fallback.gradient_end ≤ frac size y →
      (Fallback.create_gradient_background size).pix x y = ⟨34, 36, 43, 255⟩) ∧
    (∀ x1 x2 y : ℤ,
      (Fallback.create_gradient_background size).pix x1 y
        = (Fallback.create_gradient_background size).pix x2 y) ∧
    (∀ x y : ℤ, frac size y ≤ Fallback.gradient_end →
      (Fallback.create_gradient_background size).pix x y =
        ⟨lerpChan 57 34 (frac size y / Fallback.gradient_end),
         lerpChan 62 36 (frac size y / Fallback.gradient_end),
         lerpChan 62 43 (frac size y / Fallback.gradient_end), 255⟩) := by
  refine ⟨?_, ?_, ?_, ?_⟩
  · intro x
    norm_num [Fallback.create_gradient_background, Fallback.rowColor, frac_zero,
      Fallback.gradient_end, Fallback.color_top, Fallback.color_bottom, lerpChan_zero]
  · intro x y hge
    by_cases hle : frac size y ≤ Fallback.gradient_end
    · have heq : frac size y = Fallback.gradient_end := le_antisymm hle hge
      have hne : Fallback.gradient_end ≠ 0 := by
        norm_num [Fallback.gradient_end]
      simp [Fallback.create_gradient_background, Fallback.rowColor, heq,
        div_self hne, lerpChan_one, Fallback.color_top, Fallback.color_bottom]
    · simp [Fallback.create_gradient_background, Fallback.rowColor, if_neg hle,
        Fallback.color_bottom]
  · intro x1 x2 y
    rfl
  · intro x y hle
    simp [Fallback.create_gradient_background, Fallback.rowColor, if_pos hle,
      Fallback.color_top, Fallback.color_bottom]

/-- Witness for `fallback_gradient_rows` at size 11 (which has a row at
exactly the 0.7 threshold). -/
theorem fallback_gradient_rows_witness :
    2 ≤ 11 ∧
    ((∀ x : ℤ, (Fallback.create_gradient_background 11).pix x 0 = ⟨57, 62, 62, 255⟩) ∧
     (∀ x y : ℤ, Fallback.gradient_end ≤ frac 11 y →
       (Fallback.create_gradient_background 11).pix x y = ⟨34, 36, 43, 255⟩) ∧
     (∀ x1 x2 y : ℤ,
       (Fallback.create_gradient_background 11).pix x1 y
         = (Fallback.create_gradient_background 11).pix x2 y) ∧
     (∀ x y : ℤ, frac 11 y ≤ Fallback.gradient_end →
       (Fallback.create_gradient_background 11).pix x y =
         ⟨lerpChan 57 34 (frac 11 y / Fallback.gradient_end),
          lerpChan 62 36 (frac 11 y / Fallback.gradient_end),
          lerpChan 62 43 (frac 11 y / Fallback.gradient_end), 255⟩)) :=
  ⟨by norm_num, fallback_gradient_rows 11 (by norm_num)⟩

/-- C4: for size ≤ 1 both gradient synthesizers define the interpolation
fraction as 0 instead of dividing by `size - 1`, so both background
functions are well defined there and paint the guarded colour (the
top-left corner colour for the full generator, the top colour for the
fallback one) at every pixel. -/
theorem gradient_size_one_guard (size : ℕ) (h : size ≤ 1) :
    (∀ i : ℤ, frac size i = 0) ∧
    (∀ x y : ℤ, (FullGen.create_gradient_background size).pix x y = ⟨20, 45, 55, 255⟩) ∧
    (∀ x y : ℤ, (Fallback.create_gradient_background size).pix x y = ⟨57, 62, 62, 255⟩) := by
  refine ⟨fun i => frac_of_le_one size h i, ?_, ?_⟩
  · intro x y
    simp [FullGen.create_gradient_background, FullGen.gradientPix, frac_of_le_one size h,
      lerpChan_zero, FullGen.color_tl, FullGen.color_tr, FullGen.color_bl, FullGen.color_br]
  · intro x y
    norm_num [Fallback.create_gradient_background, Fallback.rowColor, frac_of_le_one size h,
      Fallback.gradient_end, Fallback.color_top, Fallback.color_bottom, lerpChan_zero]

/-- Witness for `gradient_size_one_guard` at size 1. -/
theorem gradient_size_one_guard_witness :
    (1 : ℕ) ≤ 1 ∧
    ((∀ i : ℤ, frac 1 i = 0) ∧
     (∀ x y : ℤ, (FullGen.create_gradient_background 1).pix x y = ⟨20, 45, 55, 255⟩) ∧
     (∀ x y : ℤ, (Fallback.create_gradient_background 1).pix x y = ⟨57, 62, 62, 255⟩)) :=
  ⟨le_rfl, gradient_size_one_guard 1 le_rfl⟩

end Convertify
